import Mathlib

/-!
Verification of the StonkzzReport multi-source data-acquisition engine.

The definitions below are shallow embeddings of the Python source:
- `src/backend/anti_gravity_vix.py` (class AntiGravityVIXFetcher):
  value/freshness validation and the cross-source consensus computation;
- `src/backend/scripts/robust_stock_fetcher.py` (class RobustStockFetcher):
  the cascade orchestrator, its JSON cache, and the Yahoo retry loop;
- `src/backend/fetch_data_v3.py`: `make_request_with_retries`,
  `NSEOptionChainFetcher.fetch_nifty_data`, `is_holiday_or_weekend`,
  `get_last_trading_day`.

Numeric Python values (floats) are modelled as rationals; wall-clock time is
modelled in minutes as a rational, with the hour-of-day and weekday that the
code reads off `datetime.now()` carried as separate fields of a `Now` record.
-/

namespace Stonkzz

/-- Confidence tier attached by each VIX source adapter; the code stores the
strings HIGH / MEDIUM / LOW. -/
inductive Confidence where
  | HIGH
  | MEDIUM
  | LOW
deriving DecidableEq, Repr

/-- One normalized VIX reading, as built by the fetch_vix_* adapters:
`{value, change, timestamp, source, confidence}`.  `timestamp` is in minutes
on the same clock as `Now.t`. -/
structure Reading where
  value : ℚ
  change : ℚ
  timestamp : ℚ
  source : String
  confidence : Confidence
deriving DecidableEq, Repr

/-- What `cross_validate_sources` returns: the chosen representative reading
with its value/change overwritten by the consensus and the extra keys
`validated` and `num_sources` added. -/
structure VixResult where
  value : ℚ
  change : ℚ
  timestamp : ℚ
  source : String
  confidence : Confidence
  validated : Bool
  numSources : Nat
deriving DecidableEq, Repr

/-- The wall clock as the code observes it through `datetime.now()`:
`t` is the current time in minutes, `hour` is `now.hour`,
`weekday` is `now.weekday()` (Monday = 0 .. Sunday = 6). -/
structure Now where
  t : ℚ
  hour : Nat
  weekday : Nat
deriving DecidableEq, Repr

/-- `AntiGravityVIXFetcher.validate_vix_value` with the default
`historical_vix_range = (8.0, 40.0)`: rejects non-positive values, values
below 8 and values above 40. -/
def validate_vix_value (v : ℚ) : Bool :=
  if v ≤ 0 then false
  else if v < 8 then false
  else if v > 40 then false
  else true

/-- `AntiGravityVIXFetcher.validate_freshness`: the age in minutes is
compared against a ceiling of 16h before 09:00, the configured
`max_age_minutes` otherwise, overridden to 72h on Saturday/Sunday or on
Monday before 09:00. -/
def validate_freshness (maxAgeMinutes : ℚ) (now : Now) (ts : ℚ) : Bool :=
  let age := now.t - ts
  let maxAge1 : ℚ := if now.hour < 9 then 16 * 60 else maxAgeMinutes
  let maxAge2 : ℚ :=
    if 5 ≤ now.weekday ∨ (now.weekday = 0 ∧ now.hour < 9) then 72 * 60 else maxAge1
  if age > maxAge2 then false else true

/-- Python `statistics.mean`: sum divided by length. -/
def meanQ (l : List ℚ) : ℚ := l.sum / l.length

/-- Insert into a sorted list, keeping it sorted (ascending). -/
def insertSorted (x : ℚ) : List ℚ → List ℚ
  | [] => [x]
  | y :: ys => if x ≤ y then x :: y :: ys else y :: insertSorted x ys

/-- Ascending insertion sort; models Python `sorted` on a list of numbers
(for numbers the sorted value sequence is unique, so the algorithm choice
is immaterial). -/
def sortQ (l : List ℚ) : List ℚ := l.foldr insertSorted []

/-- Python `statistics.median`: middle element of the sorted list when the
length is odd, average of the two middle elements when it is even. -/
def medianQ (l : List ℚ) : ℚ :=
  let s := sortQ l
  let n := s.length
  if n % 2 = 1 then s.getD (n / 2) 0
  else (s.getD (n / 2 - 1) 0 + s.getD (n / 2) 0) / 2

/-- Maximum of a list the way Python `max` treats a nonempty list
(0 for the empty list, which the code never passes). -/
def listMax : List ℚ → ℚ
  | [] => 0
  | x :: xs => xs.foldl max x

/-- Relative deviation from the mean in percent: `|v - m| / m * 100`. -/
def devPct (m v : ℚ) : ℚ := |v - m| / m * 100

/-- `max(abs(v - mean_value) / mean_value * 100 for v in values)`. -/
def maxDeviationPct (vals : List ℚ) : ℚ :=
  listMax (vals.map (devPct (meanQ vals)))

/-- Round to the nearest integer, half to even; models Python `round(x)`. -/
def roundHalfEven (x : ℚ) : ℤ :=
  let f := ⌊x⌋
  let r := x - f
  if r < 1 / 2 then f
  else if r > 1 / 2 then f + 1
  else if f % 2 = 0 then f else f + 1

/-- Python `round(x, 2)` modelled exactly over the rationals. -/
def round2 (x : ℚ) : ℚ := (roundHalfEven (x * 100) : ℚ) / 100

/-- The sort key the code uses for the representative:
`1 if x['confidence'] == 'HIGH' else 0.5`. -/
def confScore : Confidence → ℚ
  | .HIGH => 1
  | _ => 1 / 2

/-- Python `max(l, key=...)` over a nonempty list `b :: bs`: the FIRST
element with the maximal key (a later element replaces the current best only
when its key is strictly greater). -/
def pyMax (b : Reading) (bs : List Reading) : Reading :=
  bs.foldl (fun acc x => if confScore x.confidence > confScore acc.confidence then x else acc) b

/-- The consensus section of `cross_validate_sources` (its behaviour on the
already-validated list `valid_sources`):
empty list gives None; a singleton is returned with `validated`/`num_sources`
added; with two or more readings the mean is taken, the median instead when
the maximal percent deviation exceeds the tolerance, the change is averaged
over non-zero changes, and the highest-confidence reading carries the
(2-decimal rounded) consensus values. -/
def consensusOf (tolerancePercent : ℚ) : List Reading → Option VixResult
  | [] => none
  | [r] => some ⟨r.value, r.change, r.timestamp, r.source, r.confidence, true, 1⟩
  | r1 :: r2 :: rs =>
    let vals := (r1 :: r2 :: rs).map Reading.value
    let meanValue := meanQ vals
    let maxDeviation := maxDeviationPct vals
    let consensusValue := if maxDeviation > tolerancePercent then medianQ vals else meanValue
    let changes := ((r1 :: r2 :: rs).map Reading.change).filter (fun c => decide (c ≠ 0))
    let consensusChange := if changes.isEmpty then 0 else meanQ changes
    let best := pyMax r1 (r2 :: rs)
    some ⟨round2 consensusValue, round2 consensusChange, best.timestamp, best.source,
      best.confidence, true, (r1 :: r2 :: rs).length⟩

/-- The validation loop of `cross_validate_sources`: drop the None entries,
then keep exactly the readings passing both `validate_vix_value` and
`validate_freshness`. -/
def validSources (maxAgeMinutes : ℚ) (now : Now) (sources : List (Option Reading)) :
    List Reading :=
  (sources.filterMap id).filter
    (fun r => validate_vix_value r.value && validate_freshness maxAgeMinutes now r.timestamp)

/-- `AntiGravityVIXFetcher.cross_validate_sources`: validation loop followed
by the consensus computation. -/
def cross_validate_sources (tolerancePercent maxAgeMinutes : ℚ) (now : Now)
    (sources : List (Option Reading)) : Option VixResult :=
  consensusOf tolerancePercent (validSources maxAgeMinutes now sources)

/-- The standardized dict `RobustStockFetcher` produces per ticker:
`{symbol, lastPrice, pChange, yearHigh, yearLow}`.  Note the record has no
field that could label an entry as synthetic or fabricated. -/
structure StockData where
  symbol : String
  lastPrice : ℚ
  pChange : ℚ
  yearHigh : ℚ
  yearLow : ℚ
deriving DecidableEq, Repr

/-- One entry of `stock_cache.json`: `{data, timestamp, source}`;
`timestamp` in minutes on the same clock as `now`. -/
structure CacheEntry where
  data : StockData
  timestamp : ℚ
  source : String
deriving DecidableEq, Repr

/-- The in-memory cache `self.cache`, a dict from ticker to entry. -/
def Cache := String → Option CacheEntry

/-- The empty cache. -/
def emptyCache : Cache := fun _ => none

/-- `RobustStockFetcher.get_cached_data`: return the cached data only when
the entry exists and `datetime.now() - ts < timedelta(hours=24)` (note the
strict comparison); never mutates the cache. -/
def get_cached_data (cache : Cache) (now : ℚ) (ticker : String) : Option StockData :=
  match cache ticker with
  | some e => if now - e.timestamp < 24 * 60 then some e.data else none
  | none => none

/-- `RobustStockFetcher.update_cache`: unconditionally overwrite the entry
for `ticker` with the freshly fetched data, stamped with the current time
and the source name. -/
def update_cache (cache : Cache) (ticker : String) (d : StockData) (now : ℚ)
    (src : String) : Cache :=
  fun k => if k = ticker then some ⟨d, now, src⟩ else cache k

/-- The observable outcome of one `fetch_stock` call: the returned value,
the cache state afterwards, and which of the three adapters / the cache were
consulted. -/
structure FetchOutcome where
  result : Option StockData
  cache : Cache
  yahooCalled : Bool
  nseCalled : Bool
  growwCalled : Bool
  cacheRead : Bool

/-- `RobustStockFetcher.fetch_stock`: try Yahoo, then NSE, then Groww, in
that order, stopping (and caching) at the first adapter that returns data;
only when all three fail read the cache; return None when that also misses.
Each adapter call is represented by its outcome for this round. -/
def fetch_stock (yahoo nse groww : Option StockData) (cache : Cache) (now : ℚ)
    (ticker : String) : FetchOutcome :=
  match yahoo with
  | some d => ⟨some d, update_cache cache ticker d now "Yahoo Finance", true, false, false, false⟩
  | none =>
    match nse with
    | some d => ⟨some d, update_cache cache ticker d now "NSE Official", true, true, false, false⟩
    | none =>
      match groww with
      | some d => ⟨some d, update_cache cache ticker d now "Groww", true, true, true, false⟩
      | none => ⟨get_cached_data cache now ticker, cache, true, true, true, true⟩

/-- The success path of `RobustStockFetcher._fetch_groww` (the Google
Finance fallback): when a price is scraped, the returned dict carries the
real `lastPrice` but a placeholder `pChange = 0.0`, `yearHigh = price * 1.2`
and `yearLow = price * 0.8`, with no marker distinguishing them from real
figures. -/
def fetch_groww (symbol : String) (scrapedPrice : Option ℚ) : Option StockData :=
  match scrapedPrice with
  | some price => some ⟨symbol, price, 0, price * (12 / 10), price * (8 / 10)⟩
  | none => none

/-- The outcome of `NSEOptionChainFetcher.fetch_nifty_data`: result plus
which sources were invoked. -/
structure CascadeOutcome (α : Type) where
  result : Option α
  nseCalled : Bool
  growwCalled : Bool
  mcCalled : Bool

/-- `NSEOptionChainFetcher.fetch_nifty_data`: try the NSE API, then Groww
scraping, then MoneyControl scraping, returning the first non-None result,
None when all three fail. -/
def fetch_nifty_data {α : Type} (nse groww mc : Option α) : CascadeOutcome α :=
  match nse with
  | some d => ⟨some d, true, false, false⟩
  | none =>
    match groww with
    | some d => ⟨some d, true, true, false⟩
    | none =>
      match mc with
      | some d => ⟨some d, true, true, true⟩
      | none => ⟨none, true, true, true⟩

/-- First-some combinator, the reference value for a cascade result. -/
def orO {α : Type} : Option α → Option α → Option α
  | some x, _ => some x
  | none, b => b

/-- The loop of `make_request_with_retries` in `fetch_data_v3.py`.
`resp n` is the outcome of the HTTP call of attempt `n`: `some s` for a
response with status `s`, `none` for a raised exception (in which case the
`response` variable keeps its previous value).  A 200 returns immediately;
every other outcome, of any status class, falls through to the next
attempt.  The second component counts the calls made. -/
def mrwrGo (resp : Nat → Option Nat) : Nat → Nat → Option Nat → Option Nat × Nat
  | 0, attempt, last => (last, attempt)
  | fuel + 1, attempt, last =>
    match resp attempt with
    | some s => if s = 200 then (some s, attempt + 1) else mrwrGo resp fuel (attempt + 1) (some s)
    | none => mrwrGo resp fuel (attempt + 1) last

/-- `make_request_with_retries(url, ..., max_retries)`: run up to
`maxRetries` attempts and return the last response obtained (None when
every attempt raised) together with the number of calls made. -/
def make_request_with_retries (resp : Nat → Option Nat) (maxRetries : Nat) :
    Option Nat × Nat :=
  mrwrGo resp maxRetries 0 none

/-- Cumulative day count before each month of 2026 (not a leap year). -/
def cumDays2026 : Nat → Nat
  | 1 => 0
  | 2 => 31
  | 3 => 59
  | 4 => 90
  | 5 => 120
  | 6 => 151
  | 7 => 181
  | 8 => 212
  | 9 => 243
  | 10 => 273
  | 11 => 304
  | 12 => 334
  | _ => 0

/-- A calendar date of 2026 as a day number, with 2026-01-01 as day 0.
Dates of other years correspond to day numbers outside `[0, 364]`. -/
def date2026 (month day : Nat) : Int := (cumDays2026 month + day : Int) - 1

/-- The `holidays_2026` list of `is_holiday_or_weekend`, as day numbers. -/
def holidays2026 : List Int :=
  [date2026 1 26, date2026 3 8, date2026 3 29, date2026 4 2, date2026 4 14,
   date2026 4 17, date2026 5 1, date2026 5 15, date2026 6 15, date2026 8 15,
   date2026 8 31, date2026 9 30, date2026 10 2, date2026 10 25, date2026 11 1,
   date2026 11 15, date2026 12 25]

/-- Python `date.weekday()` (Monday = 0 .. Sunday = 6) on day numbers:
2026-01-01 (day 0) is a Thursday, weekday 3. -/
def weekdayOf (d : Int) : Int := (d + 3) % 7

/-- `is_holiday_or_weekend`: Saturday/Sunday, or a member of the 2026
holiday list. -/
def is_holiday_or_weekend (d : Int) : Bool :=
  if 5 ≤ weekdayOf d then true
  else if d ∈ holidays2026 then true
  else false

/-- The bounded backward loop of `get_last_trading_day`: up to `n` times,
step one day back while the current day is a holiday or weekend. -/
def goBackTrading : Nat → Int → Int
  | 0, d => d
  | n + 1, d => if is_holiday_or_weekend d then goBackTrading n (d - 1) else d

/-- `get_last_trading_day`: start from today, or yesterday when the clock
is before 15:30, then walk back past holidays and weekends, at most 10
steps. -/
def get_last_trading_day (today : Int) (hour minute : Nat) : Int :=
  let check : Int := if hour < 15 ∨ (hour = 15 ∧ minute < 30) then today - 1 else today
  goBackTrading 10 check

/-- Modelled from the spec: the freshness ceiling as section 4.3 and the
claim word it, to be compared with `validate_freshness` — 72h on Saturday,
Sunday or Monday before open, 16h during pre-open hours (before 9),
30 minutes (the default `max_age_minutes`) otherwise. -/
def freshnessCeilingSpec (now : Now) : ℚ :=
  if now.weekday = 5 ∨ now.weekday = 6 ∨ (now.weekday = 0 ∧ now.hour < 9) then 72 * 60
  else if now.hour < 9 then 16 * 60
  else 30

/-- The spec example `[100, 100, 150]` as one acquisition round. -/
def exampleRoundA : List Reading :=
  [⟨100, 0, 0, "yahoo_finance", .HIGH⟩, ⟨100, 0, 0, "nse_official", .HIGH⟩,
   ⟨150, 0, 0, "moneycontrol", .MEDIUM⟩]

/-- The spec example `[100, 101, 102]` as one acquisition round. -/
def exampleRoundB : List Reading :=
  [⟨100, 0, 0, "yahoo_finance", .HIGH⟩, ⟨101, 0, 0, "nse_official", .HIGH⟩,
   ⟨102, 0, 0, "moneycontrol", .MEDIUM⟩]

/-- Three agreeing readings (max deviation well under 5%) whose mean
3001/300 is not representable in 2 decimals. -/
def roundingRound : List Reading :=
  [⟨10, 0, 0, "yahoo_finance", .HIGH⟩, ⟨10, 0, 0, "nse_official", .HIGH⟩,
   ⟨1001 / 100, 0, 0, "moneycontrol", .MEDIUM⟩]

/-- A LOW-confidence reading arriving before a MEDIUM-confidence one, both
valid and in agreement. -/
def lowFirstRound : List Reading :=
  [⟨20, 0, 0, "google_finance", .LOW⟩, ⟨20, 0, 0, "moneycontrol", .MEDIUM⟩]

/-- A sample standardized stock dict. -/
def sampleStock : StockData := ⟨"RELIANCE", 2850, 0, 3000, 2500⟩

/-- A cache holding, for every ticker, an entry stored at minute 0 by a
successful Yahoo fetch. -/
def storedAtZeroCache : Cache := fun _ => some ⟨sampleStock, 0, "Yahoo Finance"⟩

/-- A reading captured at minute 0 with an in-range value. -/
def freshReading : Reading := ⟨20, 0, 0, "yahoo_finance", .HIGH⟩

/-- A Tuesday mid-morning clock at minute 0. -/
def witnessNow : Now := ⟨0, 10, 2⟩

/-- Every configured 2026 holiday falls between day 25 (Jan 26) and day 358
(Dec 25). -/
lemma holidays2026_bounds : ∀ x ∈ holidays2026, (25 : Int) ≤ x ∧ x ≤ 358 := by decide

/-- If some day within the next `n` backward steps is a trading day, the
bounded backward loop stops on a trading day. -/
lemma goBackTrading_reaches (n : Nat) (d : Int)
    (h : ∃ j : Nat, j < n ∧ is_holiday_or_weekend (d - j) = false) :
    is_holiday_or_weekend (goBackTrading n d) = false := by
  induction n generalizing d with
  | zero =>
    obtain ⟨j, hj, _⟩ := h
    omega
  | succ n ih =>
    by_cases hd : is_holiday_or_weekend d = true
    · rw [goBackTrading, if_pos hd]
      obtain ⟨j, hj, hjf⟩ := h
      rcases j with _ | k
      · rw [show d - ((0 : Nat) : Int) = d by push_cast; ring] at hjf
        rw [hd] at hjf
        cases hjf
      · refine ih (d - 1) ⟨k, by omega, ?_⟩
        rw [show d - 1 - (k : Int) = d - ((k + 1 : Nat) : Int) by push_cast; ring]
        exact hjf
    · rw [goBackTrading, if_neg hd]
      simpa using hd

-- The in-2026 finite check: scanning back from any day numbered 25..367,
-- a trading day appears within 10 steps.
set_option maxRecDepth 8000 in
lemma trading_within_ten_range :
    ∀ n : Nat, n < 343 →
      ∃ j : Nat, j < 10 ∧ is_holiday_or_weekend (25 + (n : Int) - (j : Int)) = false := by
  decide

/-- From any day whatsoever, scanning backward finds a trading day within
10 steps: inside the 2026 holiday window by the finite check, outside it
because at most two consecutive days are weekend days. -/
lemma trading_within_ten (d : Int) :
    ∃ j : Nat, j < 10 ∧ is_holiday_or_weekend (d - (j : Int)) = false := by
  by_cases hd : 25 ≤ d ∧ d ≤ 367
  · obtain ⟨n, hn, heq⟩ : ∃ n : Nat, n < 343 ∧ d = 25 + (n : Int) :=
      ⟨(d - 25).toNat, by omega, by omega⟩
    obtain ⟨j, hj, hf⟩ := trading_within_ten_range n hn
    exact ⟨j, hj, by rw [heq]; exact hf⟩
  · have hnotmem : ∀ j : Nat, j < 10 → d - (j : Int) ∉ holidays2026 := by
      intro j hj hmem
      have := holidays2026_bounds _ hmem
      omega
    have h7 : (0 : Int) ≤ (d + 3) % 7 ∧ (d + 3) % 7 < 7 :=
      ⟨Int.emod_nonneg _ (by norm_num), Int.emod_lt_of_pos _ (by norm_num)⟩
    rcases show (d + 3) % 7 ≤ 4 ∨ (d + 3) % 7 = 5 ∨ (d + 3) % 7 = 6 by omega with h | h | h
    · refine ⟨0, by omega, ?_⟩
      rw [is_holiday_or_weekend, if_neg ?_, if_neg (hnotmem 0 (by omega))]
      unfold weekdayOf
      push_cast
      omega
    · refine ⟨1, by omega, ?_⟩
      rw [is_holiday_or_weekend, if_neg ?_, if_neg (hnotmem 1 (by omega))]
      unfold weekdayOf
      push_cast
      omega
    · refine ⟨2, by omega, ?_⟩
      rw [is_holiday_or_weekend, if_neg ?_, if_neg (hnotmem 2 (by omega))]
      unfold weekdayOf
      push_cast
      omega

/-- C10: for every current datetime — any day number, hour and minute —
`get_last_trading_day` returns a date for which `is_holiday_or_weekend` is
false: the backward search, bounded at 10 steps, always reaches a
non-weekend non-holiday date, because the configured 2026 holiday table
never produces 10 or more consecutive non-trading days. -/
theorem c10_last_trading_day_is_trading (today : Int) (hour minute : Nat) :
    is_holiday_or_weekend (get_last_trading_day today hour minute) = false := by
  unfold get_last_trading_day
  exact goBackTrading_reaches 10 _ (trading_within_ten _)

/-- When no attempt ever yields a 200, the loop runs through all its fuel,
making one call per iteration. -/
lemma mrwrGo_count (resp : Nat → Option Nat)
    (hfail : ∀ n s, resp n = some s → s ≠ 200) :
    ∀ fuel attempt last, (mrwrGo resp fuel attempt last).2 = attempt + fuel := by
  intro fuel
  induction fuel with
  | zero => intro attempt last; simp [mrwrGo]
  | succ n ih =>
    intro attempt last
    cases hr : resp attempt with
    | none =>
      simp only [mrwrGo, hr]
      rw [ih]
      omega
    | some s =>
      simp only [mrwrGo, hr]
      rw [if_neg (hfail attempt s hr), ih]
      omega

/-- One unfolding step of the loop when the current attempt fails with a
non-200 status. -/
lemma mrwrGo_step_fail (resp : Nat → Option Nat) (fuel attempt : Nat)
    (last : Option Nat) (s : Nat) (hr : resp attempt = some s) (hs : s ≠ 200) :
    mrwrGo resp (fuel + 1) attempt last = mrwrGo resp fuel (attempt + 1) (some s) := by
  simp only [mrwrGo, hr]
  rw [if_neg hs]

/-- Against a source that answers every attempt with the same non-200
status, the loop consumes all its fuel and hands back that status. -/
lemma mrwrGo_persistent (resp : Nat → Option Nat) (s : Nat) (hs : s ≠ 200)
    (hall : ∀ n, resp n = some s) :
    ∀ fuel attempt last, mrwrGo resp (fuel + 1) attempt last = (some s, attempt + fuel + 1) := by
  intro fuel
  induction fuel with
  | zero =>
    intro attempt last
    rw [mrwrGo_step_fail resp 0 attempt last s (hall attempt) hs]
    simp only [mrwrGo, Prod.mk.injEq]
  | succ n ih =>
    intro attempt last
    rw [mrwrGo_step_fail resp (n + 1) attempt last s (hall attempt) hs, ih]
    congr 1
    omega

/-- C4 (amended): `make_request_with_retries` does not distinguish error
classes.  Every failed attempt — any non-200 status, 404 and 401 included,
and any raised exception — is retried alike: when no attempt returns 200 it
makes exactly `max_retries` calls; against a persistently identical error
status it returns that last error response after exactly `max_retries`
calls; only a 200 response stops the loop immediately. -/
theorem c4_retry_amended (resp : Nat → Option Nat) (maxRetries : Nat) (s : Nat) :
    ((∀ n st, resp n = some st → st ≠ 200) →
      (make_request_with_retries resp maxRetries).2 = maxRetries)
    ∧ (s ≠ 200 → (∀ n, resp n = some s) → 0 < maxRetries →
      make_request_with_retries resp maxRetries = (some s, maxRetries))
    ∧ (resp 0 = some 200 → 0 < maxRetries →
      make_request_with_retries resp maxRetries = (some 200, 1)) := by
  refine ⟨fun hfail => ?_, fun hs hall hpos => ?_, fun h200 hpos => ?_⟩
  · rw [make_request_with_retries, mrwrGo_count resp hfail]
    omega
  · obtain ⟨m, rfl⟩ : ∃ m, maxRetries = m + 1 := ⟨maxRetries - 1, by omega⟩
    rw [make_request_with_retries, mrwrGo_persistent resp s hs hall m 0 none]
    congr 1
    omega
  · obtain ⟨m, rfl⟩ : ∃ m, maxRetries = m + 1 := ⟨maxRetries - 1, by omega⟩
    simp only [make_request_with_retries, mrwrGo, h200]
    simp

/-- Witness for C4 (amended): a persistent 404 yields 3 calls and the last
404 response; an immediate 200 yields one call. -/
theorem c4_retry_amended_witness :
    make_request_with_retries (fun _ => some 404) 3 = (some 404, 3)
    ∧ make_request_with_retries (fun _ => some 200) 3 = (some 200, 1) :=
  ⟨(c4_retry_amended (fun _ => some 404) 3 404).2.1 (by decide) (fun _ => rfl) (by decide),
   (c4_retry_amended (fun _ => some 200) 3 0).2.2 rfl (by decide)⟩

/-- C4 counterexample: the claim says a terminal error class such as
NotFound is returned immediately with zero further attempts, i.e. after
exactly one call; against a source persistently answering 404 the code
makes 3 calls, not 1. -/
theorem c4_terminal_not_immediate_counterexample :
    (make_request_with_retries (fun _ => some 404) 3).2 = 3 ∧ (3 : Nat) ≠ 1 := by
  exact ⟨rfl, by decide⟩

/-- C5: in cascade mode adapters run in strict priority order and the first
success short-circuits the rest.  For `fetch_stock`: Yahoo is always tried;
NSE only when Yahoo failed; Groww only when both failed; the cache is read
only when all three adapters failed; the returned value is the first
success, the cache value only after full exhaustion.  The same holds of the
NSE → Groww → MoneyControl cascade of `fetch_nifty_data`. -/
theorem c5_cascade_strict_priority {α : Type} (yahoo nse groww : Option StockData)
    (cache : Cache) (now : ℚ) (ticker : String) (nseN growwN mcN : Option α) :
    ((fetch_stock yahoo nse groww cache now ticker).yahooCalled = true)
    ∧ ((fetch_stock yahoo nse groww cache now ticker).nseCalled = yahoo.isNone)
    ∧ ((fetch_stock yahoo nse groww cache now ticker).growwCalled
        = (yahoo.isNone && nse.isNone))
    ∧ ((fetch_stock yahoo nse groww cache now ticker).cacheRead
        = (yahoo.isNone && nse.isNone && groww.isNone))
    ∧ ((fetch_stock yahoo nse groww cache now ticker).result
        = orO yahoo (orO nse (orO groww (get_cached_data cache now ticker))))
    ∧ ((fetch_nifty_data nseN growwN mcN).nseCalled = true)
    ∧ ((fetch_nifty_data nseN growwN mcN).growwCalled = nseN.isNone)
    ∧ ((fetch_nifty_data nseN growwN mcN).mcCalled = (nseN.isNone && growwN.isNone))
    ∧ ((fetch_nifty_data nseN growwN mcN).result = orO nseN (orO growwN mcN)) := by
  refine ⟨?_, ?_, ?_, ?_, ?_, ?_, ?_, ?_, ?_⟩ <;>
    cases yahoo <;> cases nse <;> cases groww <;>
    cases nseN <;> cases growwN <;> cases mcN <;> rfl

/-- C9: `update_cache` unconditionally overwrites the entry for its ticker
and touches no other key; `fetch_stock` leaves the cache unchanged when all
live adapters fail (so serving a cache fallback, or an entry expiring,
never deletes or alters stored entries), and writes exactly the fetched
data when a live adapter succeeds. -/
theorem c9_cache_overwrite_and_frame (cache : Cache) (ticker k2 : String)
    (d : StockData) (now : ℚ) (src : String) (nse groww : Option StockData) :
    (update_cache cache ticker d now src ticker = some ⟨d, now, src⟩)
    ∧ (k2 ≠ ticker → update_cache cache ticker d now src k2 = cache k2)
    ∧ ((fetch_stock none none none cache now ticker).cache = cache)
    ∧ ((fetch_stock (some d) nse groww cache now ticker).cache
        = update_cache cache ticker d now "Yahoo Finance")
    ∧ ((fetch_stock none (some d) groww cache now ticker).cache
        = update_cache cache ticker d now "NSE Official")
    ∧ ((fetch_stock none none (some d) cache now ticker).cache
        = update_cache cache ticker d now "Groww") := by
  refine ⟨?_, fun hne => ?_, rfl, rfl, rfl, rfl⟩
  · rw [update_cache, if_pos rfl]
  · rw [update_cache, if_neg hne]

/-- Witness for C9: overwriting the (empty) cache at key "A" stores the
new entry there and key "B" stays absent. -/
theorem c9_cache_overwrite_and_frame_witness :
    (update_cache emptyCache "A" sampleStock 5 "Yahoo Finance" "A"
      = some ⟨sampleStock, 5, "Yahoo Finance"⟩)
    ∧ (update_cache emptyCache "A" sampleStock 5 "Yahoo Finance" "B" = emptyCache "B") :=
  ⟨(c9_cache_overwrite_and_frame emptyCache "A" "B" sampleStock 5 "Yahoo Finance"
      none none).1,
   (c9_cache_overwrite_and_frame emptyCache "A" "B" sampleStock 5 "Yahoo Finance"
      none none).2.1 (by decide)⟩

/-- C2 (amended): when every live source has failed, the result is the
cache lookup; `get_cached_data` returns the entry exactly when its age is
STRICTLY below the 24h TTL (the code compares `now - stored_at < 24h`, so
an entry aged exactly 24h is already rejected), and an entry at or past the
TTL is never returned, even with no alternative — the fetch then yields the
terminal failure None. -/
theorem c2_cache_ttl_amended (cache : Cache) (now : ℚ) (ticker : String) :
    ((fetch_stock none none none cache now ticker).result
      = get_cached_data cache now ticker)
    ∧ (cache ticker = none → get_cached_data cache now ticker = none)
    ∧ (∀ e : CacheEntry, cache ticker = some e → now - e.timestamp < 24 * 60 →
        (fetch_stock none none none cache now ticker).result = some e.data)
    ∧ (∀ e : CacheEntry, cache ticker = some e → 24 * 60 ≤ now - e.timestamp →
        (fetch_stock none none none cache now ticker).result = none) := by
  refine ⟨rfl, fun h => ?_, fun e he hfresh => ?_, fun e he hold => ?_⟩
  · rw [get_cached_data, h]
  · show get_cached_data cache now ticker = some e.data
    rw [get_cached_data, he]
    exact if_pos hfresh
  · show get_cached_data cache now ticker = none
    rw [get_cached_data, he]
    exact if_neg (not_lt.mpr hold)

/-- Witness for C2 (amended): with an entry stored at minute 0, a fetch at
minute 60 serves the cached data and a fetch at minute 3000 (age over 24h)
fails terminally. -/
theorem c2_cache_ttl_amended_witness :
    ((fetch_stock none none none storedAtZeroCache 60 "X").result = some sampleStock)
    ∧ ((fetch_stock none none none storedAtZeroCache 3000 "X").result = none) :=
  ⟨(c2_cache_ttl_amended storedAtZeroCache 60 "X").2.2.1 ⟨sampleStock, 0, "Yahoo Finance"⟩
      rfl (by norm_num),
   (c2_cache_ttl_amended storedAtZeroCache 3000 "X").2.2.2 ⟨sampleStock, 0, "Yahoo Finance"⟩
      rfl (by norm_num)⟩

/-- C2 counterexample: the claim returns the cached value whenever
`now - stored_at ≤ ttl`; at age exactly 24h (1440 minutes) the condition
holds with equality, yet the code — whose comparison is strict — returns
the terminal failure None instead of the cached value. -/
theorem c2_ttl_boundary_counterexample :
    ((24 * 60 : ℚ) - 0 ≤ 24 * 60)
    ∧ storedAtZeroCache "X" = some ⟨sampleStock, 0, "Yahoo Finance"⟩
    ∧ (fetch_stock none none none storedAtZeroCache (24 * 60) "X").result = none := by
  refine ⟨by norm_num, rfl, ?_⟩
  show get_cached_data storedAtZeroCache (24 * 60) "X" = none
  rw [get_cached_data]
  show (if (24 * 60 : ℚ) - 0 < 24 * 60 then some sampleStock else none) = none
  norm_num

/-- C6: the Groww/Google-Finance fallback path of the stock fetcher
fabricates placeholder figures — `pChange = 0`, `yearHigh = price * 1.2`,
`yearLow = price * 0.8` — and returns them in the ordinary standardized
dict, which has no field (and no other marker) distinguishing synthetic
data: a scraped price of 100 flows to the caller as the unlabeled record
(lastPrice 100, pChange 0, yearHigh 120, yearLow 80). -/
theorem c6_groww_fabricates_unlabeled_values :
    fetch_groww "RELIANCE" (some 100) = some ⟨"RELIANCE", 100, 0, 120, 80⟩
    ∧ (fetch_stock none none (fetch_groww "RELIANCE" (some 100)) emptyCache 0
        "RELIANCE.NS").result = some ⟨"RELIANCE", 100, 0, 120, 80⟩ := by
  constructor
  · rw [fetch_groww]
    norm_num
  · rw [fetch_groww]
    norm_num [fetch_stock]

/-- The code picks the branch by `max_deviation > tolerance`; the claim
words it as `max_deviation ≤ tolerance`.  The two formulations agree. -/
lemma consensus_if_flip (tol m med dev : ℚ) :
    (if dev > tol then med else m) = (if dev ≤ tol then m else med) := by
  rcases le_or_lt dev tol with h | h
  · rw [if_neg (not_lt.mpr h), if_pos h]
  · rw [if_pos h, if_neg (not_le.mpr h)]

/-- C1 (amended): the Consensus Engine, on the validated readings of one
round, returns no consensus for zero readings; a single reading verbatim
with `num_sources = 1`; and for two or more readings the arithmetic mean
when `max_deviation_pct = max(|v-mean|/mean)*100 ≤ tolerance_pct`, the
median otherwise — in both cases rounded to 2 decimal places (Python
`round(x, 2)`) — with `num_sources` the count of contributors.  Readings
[100,100,150] at tolerance 5% (max deviation ≈28.6%) yield the median 100,
not the mean 350/3 ≈ 116.7; readings [100,101,102] yield their mean 101
with `num_sources = 3`. -/
theorem c1_consensus_amended (tolerance : ℚ) (r r1 r2 : Reading) (rs : List Reading) :
    (consensusOf tolerance [] = none)
    ∧ (consensusOf tolerance [r]
        = some ⟨r.value, r.change, r.timestamp, r.source, r.confidence, true, 1⟩)
    ∧ ((consensusOf tolerance (r1 :: r2 :: rs)).map VixResult.value
        = some (round2
            (if maxDeviationPct ((r1 :: r2 :: rs).map Reading.value) ≤ tolerance
             then meanQ ((r1 :: r2 :: rs).map Reading.value)
             else medianQ ((r1 :: r2 :: rs).map Reading.value))))
    ∧ ((consensusOf tolerance (r1 :: r2 :: rs)).map VixResult.numSources
        = some (r1 :: r2 :: rs).length)
    ∧ ((consensusOf 5 exampleRoundA).map VixResult.value = some 100)
    ∧ (meanQ (exampleRoundA.map Reading.value) = 350 / 3
        ∧ maxDeviationPct (exampleRoundA.map Reading.value) > 5)
    ∧ ((consensusOf 5 exampleRoundB).map (fun res => (res.value, res.numSources))
        = some (101, 3)) := by
  refine ⟨rfl, rfl, ?_, rfl, ?_, ?_, ?_⟩
  · exact congrArg (fun x => some (round2 x)) (consensus_if_flip tolerance _ _ _)
  · norm_num [consensusOf, exampleRoundA, meanQ, maxDeviationPct, medianQ, sortQ,
      insertSorted, listMax, devPct, round2, roundHalfEven, pyMax, confScore,
      abs_eq_max_neg, max_def, Int.fract]
  · norm_num [exampleRoundA, meanQ, maxDeviationPct, listMax, devPct,
      abs_eq_max_neg, max_def]
  · norm_num [consensusOf, exampleRoundB, meanQ, maxDeviationPct, medianQ, sortQ,
      insertSorted, listMax, devPct, round2, roundHalfEven, pyMax, confScore,
      abs_eq_max_neg, max_def, Int.fract]

/-- C1 counterexample: the readings 10, 10 and 10.01 agree far within the
5% tolerance, so the claim demands their arithmetic mean 3001/300 as the
consensus value; the code returns `round(mean, 2) = 10`, which is not the
mean. -/
theorem c1_mean_rounded_counterexample :
    maxDeviationPct (roundingRound.map Reading.value) ≤ 5
    ∧ meanQ (roundingRound.map Reading.value) = 3001 / 300
    ∧ ((consensusOf 5 roundingRound).map VixResult.value = some 10)
    ∧ ((3001 : ℚ) / 300 ≠ 10) := by
  refine ⟨?_, ?_, ?_, by norm_num⟩
  · norm_num [roundingRound, maxDeviationPct, meanQ, listMax, devPct,
      abs_eq_max_neg, max_def]
  · norm_num [roundingRound, meanQ]
  · norm_num [consensusOf, roundingRound, meanQ, maxDeviationPct, medianQ, sortQ,
      insertSorted, listMax, devPct, round2, roundHalfEven, pyMax, confScore,
      abs_eq_max_neg, max_def, Int.fract]

/-- C7: a reading enters the consensus computation only after passing both
validator checks — `validate_vix_value` (the plausible range, here
[8, 40]: any value below 8 or above 40 is rejected) and
`validate_freshness`; `cross_validate_sources` computes its consensus over
exactly the readings that pass both. -/
theorem c7_only_validated_enter_consensus (maxAge tolerance : ℚ) (now : Now)
    (sources : List (Option Reading)) :
    (∀ v : ℚ, v < 8 ∨ 40 < v → validate_vix_value v = false)
    ∧ (∀ r ∈ validSources maxAge now sources,
        validate_vix_value r.value = true
        ∧ validate_freshness maxAge now r.timestamp = true)
    ∧ cross_validate_sources tolerance maxAge now sources
        = consensusOf tolerance (validSources maxAge now sources) := by
  refine ⟨fun v hv => ?_, fun r hr => ?_, rfl⟩
  · rw [validate_vix_value]
    rcases hv with h | h
    · rcases le_or_lt v 0 with h0 | h0
      · rw [if_pos h0]
      · rw [if_neg (not_le.mpr h0), if_pos h]
    · rw [if_neg (by linarith), if_neg (by intro h8; linarith), if_pos h]
  · rw [validSources] at hr
    have h2 := (List.mem_filter.mp hr).2
    rw [Bool.and_eq_true] at h2
    exact h2

/-- Witness for C7: 50 and 5 are rejected as out of range, while a fresh
in-range reading passes both checks (and so is kept for consensus). -/
theorem c7_only_validated_enter_consensus_witness :
    validate_vix_value 50 = false
    ∧ validate_vix_value 5 = false
    ∧ (validate_vix_value freshReading.value = true
        ∧ validate_freshness 30 witnessNow freshReading.timestamp = true) :=
  ⟨(c7_only_validated_enter_consensus 30 5 witnessNow [some freshReading]).1 50
      (Or.inr (by norm_num)),
   (c7_only_validated_enter_consensus 30 5 witnessNow [some freshReading]).1 5
      (Or.inl (by norm_num)),
   (c7_only_validated_enter_consensus 30 5 witnessNow [some freshReading]).2.1
      freshReading
      (by norm_num [validSources, validate_vix_value, validate_freshness,
        freshReading, witnessNow])⟩

/-- A reading is flagged stale exactly when its age exceeds the ceiling. -/
lemma stale_iff (a m : ℚ) : (if a > m then false else true) = false ↔ m < a := by
  split_ifs with h
  · simpa using h
  · simpa using h

/-- C3: for every clock (any time, hour and real weekday 0..6) and every
reading timestamp, the Validator rejects as stale exactly when the age
`now.t - ts` exceeds the applicable ceiling: 72h on Saturday, Sunday or
Monday before open, 16h in pre-open hours (before 9), and the default 30
minutes otherwise. -/
theorem c3_stale_iff_over_ceiling (now : Now) (ts : ℚ) (hw : now.weekday < 7) :
    validate_freshness 30 now ts = false ↔ freshnessCeilingSpec now < now.t - ts := by
  have hc : (5 ≤ now.weekday ∨ (now.weekday = 0 ∧ now.hour < 9))
      ↔ (now.weekday = 5 ∨ now.weekday = 6 ∨ (now.weekday = 0 ∧ now.hour < 9)) := by
    omega
  simp only [validate_freshness]
  rw [stale_iff, freshnessCeilingSpec, if_congr hc rfl rfl]

/-- Witness for C3: on a Tuesday at 10:00 a reading 1000 minutes old is
rejected (ceiling 30 min), and on a Saturday a reading 1000 minutes old is
accepted (ceiling 72h). -/
theorem c3_stale_iff_over_ceiling_witness :
    validate_freshness 30 ⟨1000, 10, 2⟩ 0 = false
    ∧ validate_freshness 30 ⟨1000, 10, 5⟩ 0 ≠ false :=
  ⟨(c3_stale_iff_over_ceiling ⟨1000, 10, 2⟩ 0 (by norm_num)).mpr
      (by norm_num [freshnessCeilingSpec]),
   fun h => by
    have := (c3_stale_iff_over_ceiling ⟨1000, 10, 5⟩ 0 (by norm_num)).mp h
    rw [freshnessCeilingSpec] at this
    norm_num at this⟩

/-- C8 (amended): with two or more valid readings, the representative is
the first contributor (in arrival order) whose confidence score is
maximal, where HIGH scores 1 and both MEDIUM and LOW score 0.5: HIGH
outranks MEDIUM and LOW, while MEDIUM and LOW rank equally and ties —
including the MEDIUM/LOW tie — are broken by arrival order.  The
representative's source, timestamp and confidence are reused in the
result; its numeric value is replaced by the (2-decimal rounded) consensus
value. -/
theorem c8_representative_amended (tolerance : ℚ) (r1 r2 : Reading) (rs : List Reading) :
    (confScore .HIGH > confScore .MEDIUM ∧ confScore .MEDIUM = confScore .LOW)
    ∧ ((consensusOf tolerance (r1 :: r2 :: rs)).map VixResult.source
        = some (pyMax r1 (r2 :: rs)).source)
    ∧ ((consensusOf tolerance (r1 :: r2 :: rs)).map VixResult.timestamp
        = some (pyMax r1 (r2 :: rs)).timestamp)
    ∧ ((consensusOf tolerance (r1 :: r2 :: rs)).map VixResult.confidence
        = some (pyMax r1 (r2 :: rs)).confidence)
    ∧ ((consensusOf tolerance (r1 :: r2 :: rs)).map VixResult.value
        = some (round2
            (if maxDeviationPct ((r1 :: r2 :: rs).map Reading.value) ≤ tolerance
             then meanQ ((r1 :: r2 :: rs).map Reading.value)
             else medianQ ((r1 :: r2 :: rs).map Reading.value)))) := by
  refine ⟨⟨by norm_num [confScore], by norm_num [confScore]⟩, rfl, rfl, rfl, ?_⟩
  exact congrArg (fun x => some (round2 x)) (consensus_if_flip tolerance _ _ _)

/-- C8 counterexample: the round contains a LOW-confidence reading arriving
before a MEDIUM-confidence one; the claim says MEDIUM outranks LOW, so the
MEDIUM reading (moneycontrol) should be the representative — but the code
scores MEDIUM and LOW identically and keeps the earlier LOW reading
(google_finance) as representative. -/
theorem c8_low_before_medium_counterexample :
    ((consensusOf 5 lowFirstRound).map VixResult.source = some "google_finance")
    ∧ ((consensusOf 5 lowFirstRound).map VixResult.confidence = some Confidence.LOW)
    ∧ (lowFirstRound.map Reading.confidence = [Confidence.LOW, Confidence.MEDIUM]) := by
  refine ⟨?_, ?_, rfl⟩ <;>
    norm_num [consensusOf, lowFirstRound, meanQ, maxDeviationPct, medianQ, sortQ,
      insertSorted, listMax, devPct, round2, roundHalfEven, pyMax, confScore,
      abs_eq_max_neg, max_def, Int.fract]

end Stonkzz
